import Mathlib

/-!
Verification of the entry-point bootstrap module `apps/api/app/main.py`
(FastAPI application): environment-driven CORS policy resolution
(`get_cors_config`), the module-level cached policy, the diagnostic
endpoints `/health` and `/cors-config`, the `LogFilterMiddleware`
request pipeline stage, the middleware registration order, and the
`on_startup` sequence.

The Python module is shallowly embedded: the process environment is an
explicit record of the variables the module reads, `os.getenv(k, d)`
becomes an `Option.getD`, Python string operations (`str.split(",")`,
`str.strip()`, `str.lower()`, the `in` substring test) are embedded as
executable Lean functions with the same semantics, stateful code (the
the `disabled` flag of the uvicorn access-log sink) is embedded by explicit
state passing, and exceptions become `Except`.
-/

/-- The process environment restricted to the variables `main.py` reads.
`none` models an unset variable, so `os.getenv(k, d)` is `(·.getD d)`. -/
structure Env where
  CORS_ORIGINS : Option String
  DEBUG_CORS : Option String
  ENVIRONMENT : Option String
  DEBUG : Option String
  PORT : Option String
deriving DecidableEq, Repr

/-- The read `os.getenv("CORS_ORIGINS", "")` as it appears in
`get_cors_config` and in the `/cors-config` handler. -/
def corsOriginsEnv (env : Env) : String :=
  env.CORS_ORIGINS.getD ""

/-- Python `str.lower()` (for the ASCII strings the module compares):
lowercase each character. -/
def pyLower (s : String) : String :=
  String.mk (s.data.map Char.toLower)

/-- The test `os.getenv("DEBUG_CORS", "false").lower() == "true"`, the
expression the module evaluates identically in
`LogFilterMiddleware.dispatch`, `get_cors_config` and the `/cors-config`
handler. -/
def debugCorsEnabled (env : Env) : Bool :=
  pyLower (env.DEBUG_CORS.getD "false") == "true"

/-- Python `str.strip()` (for the ASCII whitespace the module can meet):
drop whitespace characters from both ends. -/
def pyStrip (s : String) : String :=
  String.mk (((s.data.dropWhile Char.isWhitespace).reverse.dropWhile Char.isWhitespace).reverse)

/-- Helper for Python `str.split(",")`: walk the characters, `acc` holds the
current piece reversed; a comma closes a piece, the end closes the last one.
So `""` gives `[""]` and `","` gives `["", ""]`, exactly as in Python. -/
def splitCommaAux : List Char → List Char → List String
  | [], acc => [String.mk acc.reverse]
  | c :: cs, acc =>
    if c = ',' then String.mk acc.reverse :: splitCommaAux cs []
    else splitCommaAux cs (c :: acc)

/-- Python `s.split(",")`. -/
def pySplitComma (s : String) : List String :=
  splitCommaAux s.data []

/-- Whether `pat` is a prefix of `s`, on character lists. -/
def isPrefixChars : List Char → List Char → Bool
  | [], _ => true
  | _ :: _, [] => false
  | a :: as, b :: bs => a == b && isPrefixChars as bs

/-- Python `pat in s` (contiguous substring test), on character lists. -/
def hasSubstring : List Char → List Char → Bool
  | [], pat => pat.isEmpty
  | s@(_ :: rest), pat => isPrefixChars pat s || hasSubstring rest pat

/-- The fixed local-development origin list of the final branch of
`get_cors_config`, verbatim from the source. -/
def defaultDevOrigins : List String :=
  ["http://localhost:3000",
   "http://localhost:3001",
   "http://127.0.0.1:3000",
   "http://127.0.0.1:3001",
   "http://localhost:8080",
   "http://127.0.0.1:8080"]

/-- The function `get_cors_config()` of `main.py`: reads `CORS_ORIGINS` (default `""`)
and `DEBUG_CORS` (default `"false"`, lowercased, compared to `"true"`);
debug wins, else a non-empty origins string is split on commas and each
piece stripped (mode `production`), else the fixed development list. -/
def get_cors_config (env : Env) : List String × String :=
  let cors_origins := corsOriginsEnv env
  let debug_cors := debugCorsEnabled env
  if debug_cors then
    (["*"], "debug")
  else if cors_origins ≠ "" then
    ((pySplitComma cors_origins).map pyStrip, "production")
  else
    (defaultDevOrigins, "development")

/-- The module-level state of `main.py` after import: the line
`allowed_origins, cors_mode = get_cors_config()` runs once, against the
environment as it is at process start, and the two names keep that value. -/
structure AppState where
  allowed_origins : List String
  cors_mode : String
deriving DecidableEq, Repr

/-- Module initialization: `allowed_origins, cors_mode = get_cors_config()`
evaluated on the process-start environment snapshot. -/
def moduleInit (env : Env) : AppState :=
  { allowed_origins := (get_cors_config env).1, cors_mode := (get_cors_config env).2 }

/-- The JSON body returned by `GET /cors-config`. -/
structure CorsConfigResponse where
  cors_origins_env : String
  debug_cors : Bool
  allowed_origins : List String
  cors_mode : String
deriving DecidableEq, Repr

/-- The `/cors-config` handler `cors_config()`: `cors_origins_env` and
`debug_cors` are re-read from the environment at request time, while
`allowed_origins` and `cors_mode` are the module-level globals assigned
when the module loads. `st` is the module state, `env` the request-time
environment. -/
def cors_config (st : AppState) (env : Env) : CorsConfigResponse :=
  { cors_origins_env := corsOriginsEnv env,
    debug_cors := debugCorsEnabled env,
    allowed_origins := st.allowed_origins,
    cors_mode := st.cors_mode }

/-- The JSON body returned by `GET /health`. -/
structure HealthResponse where
  ok : Bool
deriving DecidableEq, Repr

/-- The `/health` handler `health()`: returns the constant `{"ok": True}`,
reading no state at all. -/
def health : HealthResponse :=
  { ok := true }

/-- Outcome of dispatching a request path against the two diagnostic routes
the module itself defines. -/
inductive DiagResult where
  | healthResp (r : HealthResponse)
  | corsResp (r : CorsConfigResponse)
  | notFound
deriving DecidableEq, Repr

/-- Route dispatch for the two endpoints the module itself defines: `GET /health` calls
`health()`, `GET /cors-config` calls `cors_config()`; anything else belongs
to the mounted routers. `st` is the module state, `env` the request-time
environment. -/
def handleDiagnostic (st : AppState) (env : Env) (path : String) : DiagResult :=
  if path = "/health" then DiagResult.healthResp health
  else if path = "/cors-config" then DiagResult.corsResp (cors_config st env)
  else DiagResult.notFound

/-- The two middleware classes the module registers on the app. -/
inductive MiddlewareId where
  | logFilter
  | cors
deriving DecidableEq, Repr

/-- The Starlette method `add_middleware` inserts the new middleware at
position 0 of the user-middleware list, whose first element is the outermost
stage: the middleware added last wraps all earlier ones. The stack is kept
outermost-first. -/
def addMiddleware (stack : List MiddlewareId) (m : MiddlewareId) : List MiddlewareId :=
  m :: stack

/-- The middleware stack `main.py` builds, in its source order:
`app.add_middleware(LogFilterMiddleware)` first, then
`app.add_middleware(CORSMiddleware, ...)`. Outermost-first. -/
def appMiddlewareStack : List MiddlewareId :=
  addMiddleware (addMiddleware [] MiddlewareId.logFilter) MiddlewareId.cors

/-- The observable steps of `LogFilterMiddleware.dispatch`, in the order the
embedding records them. -/
inductive TraceEvent where
  | corsDebugTrace
  | suppressOn
  | routeDispatch
  | suppressRestore
deriving DecidableEq, Repr

/-- The marker `"/requests/active"` that `LogFilterMiddleware.dispatch` looks
for in `request.url.path`. -/
def pollingMarker : String :=
  "/requests/active"

/-- The method `LogFilterMiddleware.dispatch`, embedded with explicit state passing for
the shared `logging.getLogger("uvicorn.access").disabled` flag (`sink` below,
`true` = logging disabled) and `Except` for a raising downstream call.

First, if `DEBUG_CORS` is truthy and the request has an `origin` header, the
CORS debug lines are printed. Then, if the path contains the polling marker,
the handler saves `original_disabled`, sets `disabled = True`, awaits
`call_next` and in a `finally` restores the saved flag, so the restore also
runs when `call_next` raises; otherwise `call_next` runs with the flag
untouched. `callNext` receives the flag it runs under and returns its result
(or exception) together with the flag as it left it. The returned list
records the order of the observable steps. -/
def logFilterDispatch {E R : Type} (env : Env) (origin : Option String)
    (path : String) (sink : Bool)
    (callNext : Bool → Except E R × Bool) :
    List TraceEvent × Except E R × Bool :=
  let traceEvents : List TraceEvent :=
    if debugCorsEnabled env then
      match origin with
      | some _ => [TraceEvent.corsDebugTrace]
      | none => []
    else []
  if hasSubstring path.data pollingMarker.data then
    let original := sink
    let r := callNext true
    (traceEvents ++ [TraceEvent.suppressOn, TraceEvent.routeDispatch, TraceEvent.suppressRestore],
      r.1, original)
  else
    let r := callNext sink
    (traceEvents ++ [TraceEvent.routeDispatch], r.1, r.2)

/-- The startup hook `on_startup()` of `main.py`, with every external call (terminal-ui
emission, SQLAlchemy inspect, schema creation) passed in as a fallible
action. The body is a plain sequence inside no `try`/`except`: each action
runs only if all earlier ones succeeded, and any raised exception propagates
out of the startup hook. The CORS status message is chosen by `cors_mode`
exactly as the `if`/`elif`/`else` of the source does. -/
def on_startup {E : Type} (cors_mode : String)
    (uiInfoInit inspectEngine createAll uiSuccess : Except E Unit)
    (uiWarnDebug uiInfoProd uiInfoDev : Except E Unit)
    (uiInfoReady uiPanel uiLogo uiStatus : Except E Unit) : Except E Unit := do
  uiInfoInit
  inspectEngine
  createAll
  uiSuccess
  if cors_mode = "debug" then uiWarnDebug
  else if cors_mode = "production" then uiInfoProd
  else uiInfoDev
  uiInfoReady
  uiPanel
  uiLogo
  uiStatus

/-- An environment with none of the variables set. -/
def envEmpty : Env :=
  { CORS_ORIGINS := none, DEBUG_CORS := none, ENVIRONMENT := none, DEBUG := none, PORT := none }

/-- An environment with two comma-separated origins and a space after the
comma, the configuration the spec uses as its production example. -/
def envProdPair : Env :=
  { envEmpty with CORS_ORIGINS := some "https://a.example, https://b.example" }

/-- An environment with `CORS_ORIGINS="*"` and the debug flag unset. -/
def envStar : Env :=
  { envEmpty with CORS_ORIGINS := some "*" }

/-- An environment with `DEBUG_CORS="TRUE"` (upper case) and a non-empty
`CORS_ORIGINS`. -/
def envDebugUpper : Env :=
  { envEmpty with DEBUG_CORS := some "TRUE", CORS_ORIGINS := some "https://a.example" }

/-- An environment with `DEBUG_CORS="true"`. -/
def envDebugOn : Env :=
  { envEmpty with DEBUG_CORS := some "true" }

/-- An environment whose `CORS_ORIGINS` is a single space: non-empty, but
holding no origin text. -/
def envSpaceOnly : Env :=
  { envEmpty with CORS_ORIGINS := some " " }

/-- A downstream handler that raises: whatever sink flag it runs under, it
returns an exception and leaves the flag as it received it. -/
def failingNext : Bool → Except Nat Nat × Bool :=
  fun b => (Except.error 7, b)

/-- A downstream handler that succeeds and leaves the sink flag as it
received it. -/
def okNext : Bool → Except Nat Nat × Bool :=
  fun b => (Except.ok 0, b)

/-- The constructor view of `String`: building a string from a character
list and reading `data` back is the identity. -/
theorem data_mk (l : List Char) : (String.mk l).data = l :=
  rfl

/-- The comma-splitter never returns an empty list, whatever the pending
piece: Python `s.split(",")` always yields at least one element. -/
theorem splitCommaAux_ne_nil (cs : List Char) : ∀ acc : List Char, splitCommaAux cs acc ≠ [] := by
  induction cs with
  | nil => intro acc; simp [splitCommaAux]
  | cons c cs ih =>
    intro acc
    by_cases h : c = ','
    · simp [splitCommaAux, h]
    · simpa [splitCommaAux, h] using ih (c :: acc)

/-- Python `s.split(",")` always yields at least one element. -/
theorem pySplitComma_ne_nil (s : String) : pySplitComma s ≠ [] :=
  splitCommaAux_ne_nil s.data []

/-- In every branch of `get_cors_config`, the returned origins list is
non-empty. -/
theorem get_cors_config_origins_ne_nil (env : Env) : (get_cors_config env).1 ≠ [] := by
  unfold get_cors_config
  by_cases hd : debugCorsEnabled env
  · simp [hd]
  · by_cases ho : corsOriginsEnv env = ""
    · simp [hd, ho, defaultDevOrigins]
    · simp [hd, ho, List.map_eq_nil_iff, pySplitComma_ne_nil]

/-- Every character of every piece the comma-splitter produces either came
from the pending piece `acc` or is a non-comma character of the input. -/
theorem splitCommaAux_mem_chars (P : Char → Prop) :
    ∀ (cs acc : List Char), (∀ c ∈ cs, c = ',' ∨ P c) → (∀ c ∈ acc, P c) →
      ∀ s ∈ splitCommaAux cs acc, ∀ ch ∈ s.data, P ch := by
  intro cs
  induction cs with
  | nil =>
    intro acc hcs hacc s hs ch hch
    simp [splitCommaAux] at hs
    subst hs
    rw [data_mk] at hch
    exact hacc ch (List.mem_reverse.mp hch)
  | cons c cs ih =>
    intro acc hcs hacc s hs ch hch
    by_cases h : c = ','
    · simp [splitCommaAux, h] at hs
      rcases hs with hs | hs
      · subst hs
        rw [data_mk] at hch
        exact hacc ch (List.mem_reverse.mp hch)
      · exact ih [] (fun d hd => hcs d (List.mem_cons_of_mem _ hd)) (by simp) s hs ch hch
    · simp [splitCommaAux, h] at hs
      refine ih (c :: acc) (fun d hd => hcs d (List.mem_cons_of_mem _ hd)) ?_ s hs ch hch
      intro d hd
      rcases List.mem_cons.mp hd with rfl | hd
      · rcases hcs d (List.mem_cons_self _ _) with h1 | h1
        · exact absurd h1 h
        · exact h1
      · exact hacc d hd

/-- Stripping a string all of whose characters are whitespace yields the
empty string. -/
theorem pyStrip_of_whitespace (s : String) (h : ∀ c ∈ s.data, c.isWhitespace = true) :
    pyStrip s = "" := by
  unfold pyStrip
  have h1 : s.data.dropWhile Char.isWhitespace = [] :=
    List.dropWhile_eq_nil_iff.mpr h
  rw [h1]
  rfl

/-- Sequencing two fallible unit actions succeeds exactly when both do. -/
theorem exceptSeq_ok {E : Type} (x y : Except E Unit) :
    (x >>= fun _ => y) = Except.ok () ↔ (x = Except.ok () ∧ y = Except.ok ()) := by
  cases x with
  | error e => simp [Bind.bind, Except.bind]
  | ok u => cases u; simp [Bind.bind, Except.bind]

/-- C2: whenever `DEBUG_CORS` compares equal to `"true"` case-insensitively
(the default being `"false"`), `get_cors_config` returns origins `["*"]` and
mode `"debug"`, whatever `CORS_ORIGINS` holds. -/
theorem get_cors_config_debug_overrides (env : Env)
    (h : debugCorsEnabled env = true) :
    get_cors_config env = (["*"], "debug") := by
  simp [get_cors_config, h]

/-- Witness for C2: a concrete environment with `DEBUG_CORS="TRUE"` and a
non-empty `CORS_ORIGINS` resolves to `["*"]` and mode `debug`. -/
theorem get_cors_config_debug_overrides_witness :
    get_cors_config envDebugUpper = (["*"], "debug") :=
  get_cors_config_debug_overrides envDebugUpper (by decide)

/-- C3: when the debug flag is off and `CORS_ORIGINS` is non-empty,
`get_cors_config` returns exactly the comma-split of `CORS_ORIGINS` with
each element stripped of surrounding whitespace, in order and without
de-duplication or validation, together with mode `"production"`. -/
theorem get_cors_config_production_split (env : Env)
    (hdbg : debugCorsEnabled env = false) (hne : corsOriginsEnv env ≠ "") :
    get_cors_config env = ((pySplitComma (corsOriginsEnv env)).map pyStrip, "production") := by
  simp [get_cors_config, hdbg, hne]

/-- Witness for C3: the two-origin example environment resolves to the
trimmed pair and mode `production`. -/
theorem get_cors_config_production_split_witness :
    get_cors_config envProdPair = (["https://a.example", "https://b.example"], "production") := by
  have h := get_cors_config_production_split envProdPair (by decide) (by decide)
  rw [h]
  decide

/-- C4: when the debug flag is off and `CORS_ORIGINS` is empty or absent,
`get_cors_config` returns the fixed six local-development origins (ports
3000, 3001, 8080 over localhost and 127.0.0.1) and mode `"development"`. -/
theorem get_cors_config_development_defaults (env : Env)
    (hdbg : debugCorsEnabled env = false) (hempty : corsOriginsEnv env = "") :
    get_cors_config env =
      (["http://localhost:3000", "http://localhost:3001",
        "http://127.0.0.1:3000", "http://127.0.0.1:3001",
        "http://localhost:8080", "http://127.0.0.1:8080"], "development") := by
  simp [get_cors_config, hdbg, hempty, defaultDevOrigins]

/-- Witness for C4: the all-unset environment resolves to the six defaults
and mode `development`. -/
theorem get_cors_config_development_defaults_witness :
    get_cors_config envEmpty =
      (["http://localhost:3000", "http://localhost:3001",
        "http://127.0.0.1:3000", "http://127.0.0.1:3001",
        "http://localhost:8080", "http://127.0.0.1:8080"], "development") :=
  get_cors_config_development_defaults envEmpty (by decide) (by decide)

/-- Counterexample to C5: with `CORS_ORIGINS="*"` and the debug flag unset,
`get_cors_config` returns origins `["*"]` with mode `"production"`, so the
claimed biconditional (mode is `debug` iff origins are `["*"]`) fails. -/
theorem cors_mode_origins_biconditional_counterexample :
    ¬ ((get_cors_config envStar).2 = "debug" ↔ (get_cors_config envStar).1 = ["*"]) := by
  decide

/-- C5 as amended: the mode tag characterizes the branch taken — `debug`
iff the debug flag is truthy, `production` iff the flag is off and
`CORS_ORIGINS` non-empty, `development` iff the flag is off and
`CORS_ORIGINS` empty — and in each mode the origins are the branch value
(`["*"]`, the split-and-stripped list, the fixed defaults, respectively);
but origins `["*"]` only implies mode `debug` when the flag is truthy,
since `CORS_ORIGINS="*"` produces the same origins in mode `production`. -/
theorem cors_policy_mode_invariant (env : Env) :
    ((get_cors_config env).2 = "debug" ↔ debugCorsEnabled env = true) ∧
    ((get_cors_config env).2 = "production" ↔
      (debugCorsEnabled env = false ∧ corsOriginsEnv env ≠ "")) ∧
    ((get_cors_config env).2 = "development" ↔
      (debugCorsEnabled env = false ∧ corsOriginsEnv env = "")) ∧
    ((get_cors_config env).2 = "debug" → (get_cors_config env).1 = ["*"]) ∧
    ((get_cors_config env).2 = "production" →
      (get_cors_config env).1 = (pySplitComma (corsOriginsEnv env)).map pyStrip) ∧
    ((get_cors_config env).2 = "development" → (get_cors_config env).1 = defaultDevOrigins) := by
  by_cases hd : debugCorsEnabled env
  · simp [get_cors_config, hd]
  · have hd0 : debugCorsEnabled env = false := by simpa using hd
    by_cases ho : corsOriginsEnv env = ""
    · simp [get_cors_config, hd0, ho]
    · simp [get_cors_config, hd0, ho]

/-- C9: the `/health` route answers the constant body `{"ok": true}` for
every module state (any cached policy) and every request-time environment,
reading neither storage nor the resolved CORS policy. -/
theorem health_endpoint_constant (st : AppState) (env : Env) :
    handleDiagnostic st env "/health" = DiagResult.healthResp { ok := true } :=
  rfl

/-- C10: a `CORS_ORIGINS` made only of commas and whitespace (for instance
a single space) is still non-empty, so the production branch is taken with
every resulting origin the empty string; and in every mode the returned
origins list is non-empty. -/
theorem whitespace_only_origins_production (env : Env)
    (hdbg : debugCorsEnabled env = false) (hne : corsOriginsEnv env ≠ "")
    (hws : ∀ c ∈ (corsOriginsEnv env).data, c = ',' ∨ c.isWhitespace = true) :
    (get_cors_config env).2 = "production" ∧
    (∀ o ∈ (get_cors_config env).1, o = "") ∧
    (∀ e : Env, (get_cors_config e).1 ≠ []) := by
  refine ⟨by simp [get_cors_config, hdbg, hne], ?_, get_cors_config_origins_ne_nil⟩
  intro o ho
  have heq : (get_cors_config env).1 = (pySplitComma (corsOriginsEnv env)).map pyStrip := by
    simp [get_cors_config, hdbg, hne]
  rw [heq] at ho
  rcases List.mem_map.mp ho with ⟨p, hp, rfl⟩
  apply pyStrip_of_whitespace
  intro ch hch
  exact splitCommaAux_mem_chars (fun c => c.isWhitespace = true)
    (corsOriginsEnv env).data [] hws (by simp) p hp ch hch

/-- Witness for C10: with `CORS_ORIGINS=" "` the resolver yields mode
`production` with every origin empty, and the origins list is non-empty in
every environment. -/
theorem whitespace_only_origins_production_witness :
    (get_cors_config envSpaceOnly).2 = "production" ∧
    (∀ o ∈ (get_cors_config envSpaceOnly).1, o = "") ∧
    (∀ e : Env, (get_cors_config e).1 ≠ []) :=
  whitespace_only_origins_production envSpaceOnly (by decide) (by decide) (by decide)

/-- Counterexample to C1: start the process under an empty environment (the
cached policy is the development default), then set
`CORS_ORIGINS="https://a.example, https://b.example"` before a request to
`GET /cors-config`. A fresh resolution at request time would give mode
`production` with the two origins, but the response still carries the cached
`allowed_origins` and `cors_mode`, so neither field equals the fresh
resolution. -/
theorem cors_config_endpoint_stale_counterexample :
    ¬ ((cors_config (moduleInit envEmpty) envProdPair).allowed_origins
          = (get_cors_config envProdPair).1 ∧
       (cors_config (moduleInit envEmpty) envProdPair).cors_mode
          = (get_cors_config envProdPair).2) := by
  decide

/-- C1 as amended: the `allowed_origins` and `cors_mode` fields of the
`GET /cors-config` response equal `get_cors_config` evaluated on the
environment snapshot at process start (the module-level assignment), and
are unchanged by any environment mutation between requests; only the
`cors_origins_env` and `debug_cors` fields are re-read from the environment
at request time and reflect such mutation. -/
theorem cors_config_endpoint_cached (envStart envReq1 envReq2 : Env) :
    (cors_config (moduleInit envStart) envReq1).allowed_origins = (get_cors_config envStart).1 ∧
    (cors_config (moduleInit envStart) envReq1).cors_mode = (get_cors_config envStart).2 ∧
    (cors_config (moduleInit envStart) envReq1).allowed_origins
      = (cors_config (moduleInit envStart) envReq2).allowed_origins ∧
    (cors_config (moduleInit envStart) envReq1).cors_mode
      = (cors_config (moduleInit envStart) envReq2).cors_mode ∧
    (cors_config (moduleInit envStart) envReq1).cors_origins_env = corsOriginsEnv envReq1 ∧
    (cors_config (moduleInit envStart) envReq1).debug_cors = debugCorsEnabled envReq1 := by
  exact ⟨rfl, rfl, rfl, rfl, rfl, rfl⟩

/-- C6: on a path containing `/requests/active`, the log-filter middleware
runs the downstream call with the access-log sink disabled and afterwards
restores the previous sink state unconditionally — also when the downstream
call raises — while returning (or re-raising) whatever the downstream call
produced. -/
theorem log_suppressor_restores_sink {E R : Type} (env : Env) (origin : Option String)
    (path : String) (sink : Bool) (callNext : Bool → Except E R × Bool)
    (h : hasSubstring path.data pollingMarker.data = true) :
    (logFilterDispatch env origin path sink callNext).2.2 = sink ∧
    (logFilterDispatch env origin path sink callNext).2.1 = (callNext true).1 := by
  simp [logFilterDispatch, h]

/-- Witness for C6: on the polling path, with the sink initially enabled
(flag `false`) and a downstream call that raises, the raised error is
propagated and the sink flag ends as it began. -/
theorem log_suppressor_restores_sink_witness :
    (logFilterDispatch envEmpty none "/api/chat/requests/active" false failingNext).2.2 = false ∧
    (logFilterDispatch envEmpty none "/api/chat/requests/active" false failingNext).2.1
      = Except.error 7 := by
  have h := log_suppressor_restores_sink envEmpty none "/api/chat/requests/active"
    false failingNext (by decide)
  exact ⟨h.1, h.2.trans rfl⟩

/-- Counterexample to C7: in mode `development`, when every startup action
succeeds except the reporting step that prints the development origins
(which raises `42`), `on_startup` propagates the error instead of reaching
the ready state — a reporting failure does abort startup. -/
theorem on_startup_reporting_failure_counterexample :
    on_startup "development" (Except.ok ()) (Except.ok ()) (Except.ok ()) (Except.ok ())
      (Except.ok ()) (Except.ok ()) (Except.error 42)
      (Except.ok ()) (Except.ok ()) (Except.ok ()) (Except.ok ())
      = (Except.error 42 : Except Nat Unit) :=
  rfl

/-- C7 as amended: `on_startup` sequences the schema-creation step and the
reporting steps with no local recovery at all: it reaches the ready state
(returns success) exactly when every step it executes succeeds, so a
failure of schema creation is fatal, and so is a failure of any
operator-facing reporting step. -/
theorem on_startup_ready_iff_all_steps_ok {E : Type} (cors_mode : String)
    (uiInfoInit inspectEngine createAll uiSuccess : Except E Unit)
    (uiWarnDebug uiInfoProd uiInfoDev : Except E Unit)
    (uiInfoReady uiPanel uiLogo uiStatus : Except E Unit) :
    on_startup cors_mode uiInfoInit inspectEngine createAll uiSuccess
        uiWarnDebug uiInfoProd uiInfoDev uiInfoReady uiPanel uiLogo uiStatus
      = Except.ok () ↔
      (uiInfoInit = Except.ok () ∧ inspectEngine = Except.ok () ∧
       createAll = Except.ok () ∧ uiSuccess = Except.ok () ∧
       (if cors_mode = "debug" then uiWarnDebug
        else if cors_mode = "production" then uiInfoProd
        else uiInfoDev) = Except.ok () ∧
       uiInfoReady = Except.ok () ∧ uiPanel = Except.ok () ∧
       uiLogo = Except.ok () ∧ uiStatus = Except.ok ()) := by
  by_cases h1 : cors_mode = "debug"
  · simp [on_startup, exceptSeq_ok, h1]
  · by_cases h2 : cors_mode = "production"
    · simp [on_startup, exceptSeq_ok, h1, h2]
    · simp [on_startup, exceptSeq_ok, h1, h2]

/-- Counterexample to C8: the middleware registered last (`CORSMiddleware`)
is outermost, not the access-log suppressor; and inside the log-filter
middleware the CORS debug trace is emitted before the sink is disabled. A
concrete debug-mode request to the polling path observes the order
trace, suppress, dispatch, restore — not suppression first. -/
theorem middleware_order_counterexample :
    appMiddlewareStack.head? = some MiddlewareId.cors ∧
    MiddlewareId.cors ≠ MiddlewareId.logFilter ∧
    (logFilterDispatch envDebugOn (some "https://a.example") "/requests/active" false okNext).1
      = [TraceEvent.corsDebugTrace, TraceEvent.suppressOn,
         TraceEvent.routeDispatch, TraceEvent.suppressRestore] := by
  decide

/-- C8 as amended: the CORS-enforcement middleware is outermost (it was
added last), the log-filter middleware innermost; inside the latter the
CORS debug tracer runs first and only then the access-log suppressor
disables the sink around the downstream route dispatch. -/
theorem middleware_pipeline_order {E R : Type} (env : Env) (origin : String)
    (path : String) (sink : Bool) (callNext : Bool → Except E R × Bool)
    (hdbg : debugCorsEnabled env = true)
    (hpath : hasSubstring path.data pollingMarker.data = true) :
    appMiddlewareStack = [MiddlewareId.cors, MiddlewareId.logFilter] ∧
    (logFilterDispatch env (some origin) path sink callNext).1
      = [TraceEvent.corsDebugTrace, TraceEvent.suppressOn,
         TraceEvent.routeDispatch, TraceEvent.suppressRestore] := by
  refine ⟨rfl, ?_⟩
  simp [logFilterDispatch, hdbg, hpath]

/-- Witness for C8 as amended: a concrete debug-mode request to a polling
path observes the amended order. -/
theorem middleware_pipeline_order_witness :
    appMiddlewareStack = [MiddlewareId.cors, MiddlewareId.logFilter] ∧
    (logFilterDispatch envDebugOn (some "https://a.example")
        "/api/chat/requests/active" true okNext).1
      = [TraceEvent.corsDebugTrace, TraceEvent.suppressOn,
         TraceEvent.routeDispatch, TraceEvent.suppressRestore] :=
  middleware_pipeline_order envDebugOn "https://a.example" "/api/chat/requests/active"
    true okNext (by decide) (by decide)
